import Mathlib

/-!
Shallow embedding of the RAG-CHATBOT service core, translated from the
repository sources:

* `src/db/mongo_utils.py` — chat-turn store and history window
* `src/services/retriever.py` — vector store and similarity retrieval
* `src/prompt.py` — the fixed prompt template
* `src/routers/predict_router.py` — the query pipeline orchestration
* `src/routers/train_router.py` — the ingestion pipeline
* `src/components/metadata_handling.py` — per-chunk metadata
* `src/main.py` — transport layer and the shared-secret auth gate

External collaborators (MongoDB, Qdrant, the embedding and LLM gateways,
the langchain text splitter) are modelled as oracles carried in explicit
environment records; every stage outcome that the Python code obtains from
a remote call is a field of such an environment. Machine side effects
(database writes, index upserts, remote calls) are made observable as an
explicit effect trace returned next to each pipeline result. Durations
measured with time.time() are modelled as natural numbers of milliseconds
supplied by the environment.
-/

namespace RAG

/-- Three-digit zero padding of a number below 1000, used by the timing
format model. -/
def pad3 (n : Nat) : String :=
  if n < 10 then "00" ++ toString n
  else if n < 100 then "0" ++ toString n
  else toString n

/-- Model of the Python stage-duration format string, which renders a
nonnegative number of seconds with three decimals and a trailing "s".
The duration is carried as a whole number of milliseconds. -/
def fmtMillis (ms : Nat) : String :=
  (toString (ms / 1000) ++ "." ++ pad3 (ms % 1000)) ++ "s"

/-- The single-quote character, written by code point to keep string
literals free of quote characters. -/
def squoteChar : Char := Char.ofNat 39

/-- The double-quote character, written by code point. -/
def dquoteChar : Char := Char.ofNat 34

/-- Lower-case hexadecimal digit for a value below 16. -/
def hexDigitChar (n : Nat) : Char :=
  if n < 10 then Char.ofNat (48 + n) else Char.ofNat (87 + n)

/-- Two lower-case hexadecimal digits of a byte value. -/
def hexByte (n : Nat) : String :=
  String.singleton (hexDigitChar (n / 16 % 16)) ++ String.singleton (hexDigitChar (n % 16))

/-- Model of how CPython repr renders one character of a string enclosed in
quote character q: backslash and the enclosing quote are escaped, newline,
carriage return and tab become two-character escapes, other control
characters become hexadecimal escapes, everything else is kept as-is. -/
def pyReprChar (q c : Char) : String :=
  if c = '\\' then "\\\\"
  else if c = q then "\\" ++ String.singleton q
  else if c = '\n' then "\\n"
  else if c = '\r' then "\\r"
  else if c = '\t' then "\\t"
  else if c.toNat < 32 ∨ c.toNat = 127 then "\\x" ++ hexByte c.toNat
  else String.singleton c

/-- Body of the repr of a string: each character rendered in turn. -/
def pyReprBody (q : Char) : List Char → String
  | [] => ""
  | c :: cs => pyReprChar q c ++ pyReprBody q cs

/-- Model of CPython repr of a string: the quote character is a single
quote unless the string contains a single quote and no double quote. -/
def pyReprStr (s : String) : String :=
  let q := if s.data.contains squoteChar && !(s.data.contains dquoteChar)
           then dquoteChar else squoteChar
  String.singleton q ++ pyReprBody q s.data ++ String.singleton q

/-- Comma-space join, as the Python list renderer uses between items. -/
def pyJoinComma : List String → String
  | [] => ""
  | [x] => x
  | x :: y :: xs => x ++ ", " ++ pyJoinComma (y :: xs)

/-- Model of the CPython str() of a list of strings: bracketed, items
rendered with repr and joined by comma-space. This is what an f-string
placeholder receives when a Python list is substituted into it. -/
def pyStrList (xs : List String) : String :=
  "[" ++ pyJoinComma (xs.map pyReprStr) ++ "]"

/-- Lookup in a Python-dict-like association list with a default, the model
of dict.get(key, default). -/
def dictGet (d : List (String × String)) (key dflt : String) : String :=
  match d.find? (fun p => p.1 == key) with
  | some p => p.2
  | none => dflt

/-- Model of the Python double-star dict merge: keys of the base keep
their position, values overridden by the extra dict, then keys only in the
extra dict follow in order. -/
def pyMerge (base extra : List (String × String)) : List (String × String) :=
  (base.map (fun p =>
    match extra.find? (fun q => q.1 == p.1) with
    | some q => q
    | none => p))
  ++ extra.filter (fun q => !(base.any (fun p => p.1 == q.1)))

/-- A persisted chat turn, from MongoUtils.save_chat_session: the query and
response fields are optional to model documents where a field is absent,
which the history formatter reads with dict.get and an empty default. The
timestamp models the datetime.now value attached at insertion. -/
structure ChatTurn where
  user_id : String
  session_id : String
  query : Option String
  response : Option String
  timestamp : Nat
deriving DecidableEq

/-- The two history lines produced for one chat turn by
MongoUtils.get_chat_history: the query line then the response line, with
the empty string substituted for a missing field. -/
def chatLines (c : ChatTurn) : List String :=
  ["QUERY: " ++ c.query.getD "", "RESPONSE: " ++ c.response.getD ""]

/-- Translation of MongoUtils.get_chat_history: filter the chat collection
by session_id, sort by timestamp descending and keep the first three (the
model of find(...).sort(timestamp, -1).limit(3)), reverse into
chronological order, then fold the turns into alternating query and
response lines exactly as the Python loop appends them. -/
def get_chat_history (store : List ChatTurn) (session_id : String) : List String :=
  let chats := (List.insertionSort
      (fun a b : ChatTurn => b.timestamp ≤ a.timestamp)
      (store.filter (fun c => c.session_id == session_id))).take 3
  let chrono := chats.reverse
  chrono.foldl (fun acc c =>
    acc ++ ["QUERY: " ++ c.query.getD "", "RESPONSE: " ++ c.response.getD ""]) []

/-- An indexed vector point, from the PointStruct built in
RetrieverService.store_chunks: identifier, embedding vector (floats
modelled as rationals) and a dict payload. -/
structure QPoint where
  id : String
  vector : List ℚ
  payload : List (String × String)
deriving DecidableEq

/-- Observable side effects of the pipelines: remote calls and writes to
the document store and the vector index. -/
inductive Effect where
  | embedBatch (texts : List String)
  | upsert (collection : String) (points : List QPoint)
  | retrievalCall (query : String) (k : Nat)
  | historyRead (session_id : String)
  | llmCall (prompt : String)
  | saveChat (user_id session_id query response : String)
  | docSave (user_id filename content : String)
deriving DecidableEq

/-- Environment of RetrieverService.retrieve_similar_chunks: the outcome of
the query-embedding call, the current contents of the Qdrant collection,
and the cosine-similarity scoring of a stored point against a query vector,
kept abstract as a rational-valued oracle. -/
structure RetrieveEnv where
  embed : String → Except String (List ℚ)
  index : List QPoint
  score : List ℚ → QPoint → ℚ

/-- Model of the Qdrant similarity search: all stored points ranked by
score descending, truncated to the requested limit. -/
def qdrantSearch (points : List QPoint) (score : QPoint → ℚ) (limit : Nat) : List QPoint :=
  (List.insertionSort (fun a b : QPoint => score b ≤ score a) points).take limit

/-- Translation of RetrieverService.retrieve_similar_chunks: embed the
query (propagating an embedding failure), search the collection for the
top-k points, and reduce each hit to its text payload with
hit.payload.get(text, empty). -/
def retrieve_similar_chunks (env : RetrieveEnv) (query : String) (k : Nat) :
    Except String (List String) :=
  match env.embed query with
  | .error e => .error e
  | .ok qv =>
    .ok ((qdrantSearch env.index (env.score qv) k).map
      (fun hit => dictGet hit.payload "text" ""))

/-- Environment of RetrieverService.store_chunks: the outcome of the
batched embedding call, the vector the gateway returns per input text on
success, the successive uuid4 draws, and the outcome of the Qdrant
upsert. -/
structure StoreEnv where
  embed_ok : Except String Unit
  embedOf : String → List ℚ
  uuid : Nat → String
  upsert_ok : Except String Unit

/-- The point the store_chunks loop builds for the enumerated embedding at
one index: a fresh identifier from the uuid stream, the embedding vector,
and the text payload merged with the positional metadata dict when the
index is within the metadata list and with an empty dict otherwise. -/
def mkStorePoint (env : StoreEnv) (texts : List String)
    (metadatas : List (List (String × String))) (ie : Nat × List ℚ) : QPoint :=
  { id := env.uuid ie.1
    vector := ie.2
    payload := pyMerge [("text", texts.getD ie.1 "")]
      (if ie.1 < metadatas.length then metadatas.getD ie.1 [] else []) }

/-- Translation of RetrieverService.store_chunks: one batched embedding
call over all texts, then one point per embedding built by mkStorePoint,
inserted by a single batch upsert into the rag_chunks collection. -/
def store_chunks (env : StoreEnv) (texts : List String)
    (metadatas : List (List (String × String))) :
    Except String Unit × List Effect :=
  match env.embed_ok with
  | .error e => (.error e, [.embedBatch texts])
  | .ok _ =>
    let embeddings := texts.map env.embedOf
    let points := embeddings.enum.map (mkStorePoint env texts metadatas)
    match env.upsert_ok with
    | .error e => (.error e, [.embedBatch texts, .upsert "rag_chunks" points])
    | .ok _ => (.ok (), [.embedBatch texts, .upsert "rag_chunks" points])

/-- Opening segment of PROMPT_TEMPLATE up to the chat-history header. -/
def promptHeader : String :=
  "\nYou are a helpful customer support assistant.\n\nPlease respond to the user\x27s query based on the context provided and refer chat history.\n"

/-- The friendly-tone instruction line of the template. -/
def toneLine : String := "Use engaging, friendly, and helpful tone.\n"

/-- The bold-key-points instruction line of the template. -/
def boldLine : String := "Highlight key points in bold.\n"

/-- The asterisk-bullet-list instruction line of the template. -/
def bulletLine : String :=
  "Use bullet points for lists and start each bullet point with an asterisk (*) and ensure each appears on a new line.\n"

/-- The related-query instruction line of the template. -/
def relatedLine : String :=
  "If the user\x27s query is related to the context, please respond with the most relevant information from the context.\n"

/-- The refusal instruction line of the template, with its fixed refusal
string. -/
def refusalLine : String :=
  "If the user\x27s query is not related to the context, please respond with \"I\x27m sorry, I can\x27t help with that.\"\n"

/-- The consistent-markdown instruction line of the template. -/
def markdownLine : String :=
  "Use consistent markdown formatting for all tables, links/deeplinks, and code blocks.\n"

/-- Everything of PROMPT_TEMPLATE before the chat_history placeholder. -/
def segBeforeHistory : String :=
  promptHeader ++ toneLine ++ boldLine ++ bulletLine ++ toneLine ++ boldLine ++ bulletLine
    ++ relatedLine ++ refusalLine ++ markdownLine ++ "\nHere is the chat history:\n"

/-- The template text between the chat_history and context placeholders. -/
def segBeforeContext : String := "\n\nHere is the context:\n"

/-- The template text between the context and query placeholders. -/
def segBeforeQuery : String := "\n\nHere is the user\x27s query:\n"

/-- The full PROMPT_TEMPLATE literal of src/prompt.py, transcribed as one
string; apostrophes are written as the \x27 escape. -/
def PROMPT_TEMPLATE : String :=
  "\nYou are a helpful customer support assistant.\n\nPlease respond to the user\x27s query based on the context provided and refer chat history.\nUse engaging, friendly, and helpful tone.\nHighlight key points in bold.\nUse bullet points for lists and start each bullet point with an asterisk (*) and ensure each appears on a new line.\nUse engaging, friendly, and helpful tone.\nHighlight key points in bold.\nUse bullet points for lists and start each bullet point with an asterisk (*) and ensure each appears on a new line.\nIf the user\x27s query is related to the context, please respond with the most relevant information from the context.\nIf the user\x27s query is not related to the context, please respond with \"I\x27m sorry, I can\x27t help with that.\"\nUse consistent markdown formatting for all tables, links/deeplinks, and code blocks.\n\nHere is the chat history:\n{chat_history}\n\nHere is the context:\n{context}\n\nHere is the user\x27s query:\n{query}\n"

/-- Translation of CONTEXT_PROMPT.format as called in predict_flow: the
fixed template with the chat-history list and the retrieved-chunk list
substituted through the Python list renderer and the raw query substituted
as-is. -/
def format_context_prompt (chat_history context : List String) (query : String) : String :=
  segBeforeHistory ++ pyStrList chat_history ++ segBeforeContext ++ pyStrList context
    ++ segBeforeQuery ++ query ++ "\n"

/-- The fields RAGClient.get_response extracts from a successful chat
completion. -/
structure LLMData where
  model : String
  response : String
  input_tokens : Nat
  output_tokens : Nat
deriving DecidableEq

/-- The per-stage timing strings of the query-pipeline result. -/
structure TimingBreakdown where
  retrieval : String
  history : String
  prompt : String
  llm : String
  save : String
  total : String
deriving DecidableEq

/-- The record returned by PredictRouter.predict_flow on success; its
fields are exactly the keys of the Python result dict. -/
structure PredictResult where
  response : String
  model : String
  input_tokens : Nat
  output_tokens : Nat
  chunks_retrieved : Nat
  chat_history_length : Nat
  timing_breakdown : TimingBreakdown
deriving DecidableEq

/-- Environment of one query-pipeline run: the retrieval-service
environment, the chat collection together with the outcome of reading it,
the outcome of the prompt rendering (modelled as fallible because any
exception it raised would be caught by the surrounding try block), the LLM
call outcome, the chat-save outcome, and the measured stage durations in
milliseconds. -/
structure PredictEnv where
  retriever : RetrieveEnv
  chat_store : List ChatTurn
  history_ok : Except String Unit
  prompt_ok : Except String Unit
  llm : Except String LLMData
  save_ok : Except String Unit
  t_retrieval : Nat
  t_history : Nat
  t_prompt : Nat
  t_llm : Nat
  t_save : Nat
  t_total : Nat

/-- The wrapping predict_flow applies to any stage failure before
re-raising it. -/
def wrapPredictError (e : String) : String := "Error in predict_flow: " ++ e

/-- Translation of PredictRouter.predict_flow: retrieve the top five
chunks, read the chat history, render the prompt, call the LLM, save the
chat turn, and return the result record; any stage failure aborts the
remainder and is wrapped into one pipeline-level error. The effect trace
records the external calls the run issued, in order. -/
def predict_flow (env : PredictEnv) (query session_id user_id : String) :
    Except String PredictResult × List Effect :=
  match retrieve_similar_chunks env.retriever query 5 with
  | .error e => (.error (wrapPredictError e), [.retrievalCall query 5])
  | .ok context_chunks =>
    match env.history_ok with
    | .error e =>
      (.error (wrapPredictError e), [.retrievalCall query 5, .historyRead session_id])
    | .ok _ =>
      let chat_history := get_chat_history env.chat_store session_id
      match env.prompt_ok with
      | .error e =>
        (.error (wrapPredictError e), [.retrievalCall query 5, .historyRead session_id])
      | .ok _ =>
        let system_prompt := format_context_prompt chat_history context_chunks query
        match env.llm with
        | .error e =>
          (.error (wrapPredictError e),
            [.retrievalCall query 5, .historyRead session_id, .llmCall system_prompt])
        | .ok d =>
          match env.save_ok with
          | .error e =>
            (.error (wrapPredictError e),
              [.retrievalCall query 5, .historyRead session_id, .llmCall system_prompt,
                .saveChat user_id session_id query d.response])
          | .ok _ =>
            (.ok { response := d.response
                   model := d.model
                   input_tokens := d.input_tokens
                   output_tokens := d.output_tokens
                   chunks_retrieved := context_chunks.length
                   chat_history_length := chat_history.length
                   timing_breakdown :=
                     { retrieval := fmtMillis env.t_retrieval
                       history := fmtMillis env.t_history
                       prompt := fmtMillis env.t_prompt
                       llm := fmtMillis env.t_llm
                       save := fmtMillis env.t_save
                       total := fmtMillis env.t_total } },
              [.retrievalCall query 5, .historyRead session_id, .llmCall system_prompt,
                .saveChat user_id session_id query d.response])

/-- Translation of MetadataHandler.get_metadata. -/
def get_metadata (source user_id : String) : List (String × String) :=
  [("source", source), ("user_id", user_id)]

/-- Translation of MetadataHandler.get_metadata_list. -/
def get_metadata_list (texts : List String) (source user_id : String) :
    List (List (String × String)) :=
  texts.map (fun _ => get_metadata source user_id)

/-- The structured failure record TrainRouter.train returns: its fields
are exactly the keys of the Python failure dict. -/
structure TrainFailed where
  error : String
  message : String
  user_id : String
  filename : String
  status : String
deriving DecidableEq

/-- The per-stage timing strings of the ingestion result. -/
structure TrainTimingBreakdown where
  file_read : String
  text_extraction : String
  mongo_save : String
  chunking : String
  metadata : String
  vector_storage : String
  total : String
deriving DecidableEq

/-- The success record TrainRouter.train returns, with the
processing-summary and storage-info fields flattened into one record. -/
structure TrainSuccess where
  user_id : String
  filename : String
  total_chunks : Nat
  file_size : Nat
  text_length : Nat
  timing_breakdown : TrainTimingBreakdown
  chunks_stored : Nat
  file_stored : Bool
  status : String
  message : String
deriving DecidableEq

/-- Outcome of one ingestion run: TrainRouter.train always returns a
result body, either the success record or the structured failure record. -/
inductive TrainResult where
  | success (r : TrainSuccess)
  | failed (r : TrainFailed)
deriving DecidableEq

/-- Environment of one ingestion run: the uploaded file size, the combined
outcome of reading the upload and extracting its text, the outcome of the
raw-document save, the langchain text splitter as an oracle, the
vector-store environment, and the measured stage durations. -/
structure TrainEnv where
  file_size : Nat
  extract : Except String String
  mongo_save : Except String Unit
  chunker : String → List String
  store : StoreEnv
  t_file_read : Nat
  t_text_extraction : Nat
  t_mongo_save : Nat
  t_chunking : Nat
  t_metadata : Nat
  t_vector_storage : Nat
  t_total : Nat

/-- Translation of TrainRouter.train: read and extract the text, save the
raw document to the document store, chunk the text, report a structured
failure when no chunks are produced, otherwise attach per-chunk metadata
and store the chunks in the vector index; every exception is converted
into the structured failure record carrying its message. -/
def train (env : TrainEnv) (user_id orig_filename : String) :
    TrainResult × List Effect :=
  match env.extract with
  | .error e =>
    (.failed { error := "Processing Error", message := e, user_id := user_id,
               filename := orig_filename, status := "failed" }, [])
  | .ok file_text =>
    let filename := user_id ++ "_" ++ orig_filename
    match env.mongo_save with
    | .error e =>
      (.failed { error := "Processing Error", message := e, user_id := user_id,
                 filename := orig_filename, status := "failed" },
        [.docSave user_id filename file_text])
    | .ok _ =>
      let text_chunks := env.chunker file_text
      if text_chunks.isEmpty then
        (.failed { error := "Processing Error",
                   message := "No chunks generated from document",
                   user_id := user_id, filename := orig_filename, status := "failed" },
          [.docSave user_id filename file_text])
      else
        let chunk_metadata := get_metadata_list text_chunks filename user_id
        match store_chunks env.store text_chunks chunk_metadata with
        | (.error e, st) =>
          (.failed { error := "Processing Error", message := e, user_id := user_id,
                     filename := orig_filename, status := "failed" },
            .docSave user_id filename file_text :: st)
        | (.ok _, st) =>
          (.success { user_id := user_id
                      filename := orig_filename
                      total_chunks := text_chunks.length
                      file_size := env.file_size
                      text_length := file_text.length
                      timing_breakdown :=
                        { file_read := fmtMillis env.t_file_read
                          text_extraction := fmtMillis env.t_text_extraction
                          mongo_save := fmtMillis env.t_mongo_save
                          chunking := fmtMillis env.t_chunking
                          metadata := fmtMillis env.t_metadata
                          vector_storage := fmtMillis env.t_vector_storage
                          total := fmtMillis env.t_total }
                      chunks_stored := text_chunks.length
                      file_stored := true
                      status := "success"
                      message := "Document \x27" ++ orig_filename
                        ++ "\x27 processed and stored successfully" },
            .docSave user_id filename file_text :: st)

/-- Outcome of the shared-secret check in front of an endpoint. -/
inductive AuthCheck where
  | rejected (status : Nat) (detail : String)
  | authorized (client_secret : String)
deriving DecidableEq

/-- Translation of main.verify_client_secret together with the framework
handling of its required header: an absent X-Client-Secret header fails
request validation with status 422 before the dependency body runs, and a
present header that differs from the configured secret is rejected with
status 401. -/
def verify_client_secret (header : Option String) (secret : String) : AuthCheck :=
  match header with
  | none => .rejected 422 "Field required"
  | some s => if s == secret then .authorized s else .rejected 401 "Invalid client secret key"

/-- An HTTP-level outcome: a success body or an error status with detail. -/
inductive HttpOutcome (α : Type) where
  | ok (body : α)
  | httpError (status : Nat) (detail : String)
deriving DecidableEq

/-- Translation of the POST /predict handler in src/main.py: the auth gate
runs first and a rejected request performs no pipeline work; otherwise the
query pipeline runs and any pipeline error is reported as a 500 server
error. -/
def predict_endpoint (secret : String) (header : Option String) (env : PredictEnv)
    (query session_id user_id : String) : HttpOutcome PredictResult × List Effect :=
  match verify_client_secret header secret with
  | .rejected st d => (.httpError st d, [])
  | .authorized _ =>
    match predict_flow env query session_id user_id with
    | (.ok r, tr) => (.ok r, tr)
    | (.error e, tr) => (.httpError 500 ("Prediction failed: " ++ e), tr)

/-- Translation of the POST /train handler in src/main.py: the auth gate
runs first and a rejected request performs no pipeline work; otherwise the
ingestion pipeline runs and its result, success or structured failure, is
returned as the response body. -/
def train_endpoint (secret : String) (header : Option String) (env : TrainEnv)
    (user_id filename : String) : HttpOutcome TrainResult × List Effect :=
  match verify_client_secret header secret with
  | .rejected st d => (.httpError st d, [])
  | .authorized _ =>
    match train env user_id filename with
    | (r, tr) => (.ok r, tr)

/-! Helper lemmas about the chat-history model. -/

/-- The Python loop of get_chat_history, folded over a window with any
accumulator, appends the flattened two-line renderings of the turns. -/
theorem foldl_two_append (w : List ChatTurn) (acc : List String) :
    w.foldl (fun acc c =>
      acc ++ ["QUERY: " ++ c.query.getD "", "RESPONSE: " ++ c.response.getD ""]) acc
      = acc ++ w.flatMap chatLines := by
  induction w generalizing acc with
  | nil => simp
  | cons c t ih => simp [List.foldl_cons, ih, chatLines]

/-- get_chat_history rendered as a flat map over its chronological
window. -/
theorem get_chat_history_eq (store : List ChatTurn) (sid : String) :
    get_chat_history store sid
      = (((List.insertionSort (fun a b : ChatTurn => b.timestamp ≤ a.timestamp)
          (store.filter (fun c => c.session_id == sid))).take 3).reverse).flatMap chatLines := by
  unfold get_chat_history
  exact (foldl_two_append _ []).trans (List.nil_append _)

/-- Ordered insertion of an element below every list element lands at the
end of the list. -/
theorem orderedInsert_append_last {α : Type} (r : α → α → Prop) [DecidableRel r]
    (a : α) (l : List α) (h : ∀ x ∈ l, ¬ r a x) :
    List.orderedInsert r a l = l ++ [a] := by
  induction l with
  | nil => rfl
  | cons x xs ih =>
    rw [List.orderedInsert, if_neg (h x (by simp))]
    rw [ih (fun y hy => h y (by simp [hy]))]
    simp

/-- Sorting a strictly chronologically ascending list of turns by
timestamp descending reverses it. -/
theorem insertionSort_desc_of_sorted (l : List ChatTurn)
    (h : l.Pairwise (fun a b => a.timestamp < b.timestamp)) :
    List.insertionSort (fun a b : ChatTurn => b.timestamp ≤ a.timestamp) l = l.reverse := by
  induction l with
  | nil => rfl
  | cons a t ih =>
    have hp := List.pairwise_cons.mp h
    rw [List.insertionSort, ih hp.2]
    rw [orderedInsert_append_last _ a t.reverse
      (by intro x hx
          have hx' : x ∈ t := by simpa using hx
          have := hp.1 x hx'
          omega)]
    simp

/-- Taking a suffix window through double reversal equals dropping the
complement. -/
theorem rev_take_rev {α : Type} (l : List α) (k : Nat) :
    (l.reverse.take k).reverse = l.drop (l.length - k) := by
  rw [List.take_reverse]
  simp

/-- Each turn contributes exactly two history lines. -/
theorem length_flatMap_chatLines (w : List ChatTurn) :
    (w.flatMap chatLines).length = 2 * w.length := by
  induction w with
  | nil => rfl
  | cons c t ih => simp [chatLines, ih]; omega

/-- In a flattened window the even positions are query lines and the odd
positions are response lines. -/
theorem flatMap_chatLines_alt (w : List ChatTurn) :
    ∀ i, i < (w.flatMap chatLines).length →
      (i % 2 = 0 → ∃ r, (w.flatMap chatLines).getD i "" = "QUERY: " ++ r)
      ∧ (i % 2 = 1 → ∃ r, (w.flatMap chatLines).getD i "" = "RESPONSE: " ++ r) := by
  induction w with
  | nil => intro i hi; simp [List.flatMap] at hi
  | cons c t ih =>
    intro i hi
    match i with
    | 0 =>
      refine ⟨fun _ => ⟨c.query.getD "", ?_⟩, fun hodd => by omega⟩
      simp [List.flatMap_cons, chatLines]
    | 1 =>
      refine ⟨fun heven => by omega, fun _ => ⟨c.response.getD "", ?_⟩⟩
      simp [List.flatMap_cons, chatLines]
    | (n + 2) =>
      have hlen : n < (t.flatMap chatLines).length := by
        rw [List.flatMap_cons, List.length_append] at hi
        simp only [chatLines, List.length_cons, List.length_nil] at hi
        omega
      have hmod : (n + 2) % 2 = n % 2 := by omega
      have hget : ((c :: t).flatMap chatLines).getD (n + 2) ""
          = (t.flatMap chatLines).getD n "" := by
        rw [List.flatMap_cons]
        simp only [chatLines, List.cons_append, List.nil_append, List.getD_cons_succ]
      rw [hget, hmod]
      exact ih n hlen

/-- C2. For a session whose persisted turns are strictly chronological,
fetching chat history returns the last min(n, 3) turns in chronological
order, each expanded into its query line followed by its response line,
for 2 * min(n, 3) lines in total. -/
theorem c2_history_window (store : List ChatTurn) (sid : String)
    (hchrono : (store.filter (fun c => c.session_id == sid)).Pairwise
      (fun a b => a.timestamp < b.timestamp)) :
    get_chat_history store sid
      = ((store.filter (fun c => c.session_id == sid)).drop
          ((store.filter (fun c => c.session_id == sid)).length - 3)).flatMap chatLines
    ∧ (get_chat_history store sid).length
        = 2 * min (store.filter (fun c => c.session_id == sid)).length 3 := by
  have h1 : get_chat_history store sid
      = ((store.filter (fun c => c.session_id == sid)).drop
          ((store.filter (fun c => c.session_id == sid)).length - 3)).flatMap chatLines := by
    rw [get_chat_history_eq, insertionSort_desc_of_sorted _ hchrono, rev_take_rev]
  refine ⟨h1, ?_⟩
  rw [h1, length_flatMap_chatLines, List.length_drop]
  omega

/-- A five-turn demonstration session used to instantiate the history
theorems. -/
def demoStore5 : List ChatTurn :=
  [ { user_id := "u", session_id := "S", query := some "q1", response := some "r1", timestamp := 1 },
    { user_id := "u", session_id := "S", query := some "q2", response := some "r2", timestamp := 2 },
    { user_id := "u", session_id := "S", query := some "q3", response := some "r3", timestamp := 3 },
    { user_id := "u", session_id := "S", query := some "q4", response := some "r4", timestamp := 4 },
    { user_id := "u", session_id := "S", query := some "q5", response := some "r5", timestamp := 5 } ]

/-- Witness for C2: five persisted turns yield exactly the six lines of
turns 3, 4, 5 in chronological order. -/
theorem c2_history_window_witness :
    get_chat_history demoStore5 "S"
      = ["QUERY: q3", "RESPONSE: r3", "QUERY: q4", "RESPONSE: r4", "QUERY: q5", "RESPONSE: r5"]
    ∧ (get_chat_history demoStore5 "S").length = 6 := by
  have h := c2_history_window demoStore5 "S" (by decide)
  exact ⟨h.1.trans (by decide), h.2.trans (by decide)⟩

/-- C10. For every stored turn list, even ones whose query or response
field is absent, get_chat_history totally computes an even-length list of
strictly alternating lines: query lines at even zero-based positions,
response lines at odd ones, with the empty string substituted for a
missing field by the two-line rendering chatLines. -/
theorem c10_history_lines_shape (store : List ChatTurn) (sid : String) :
    ∃ w : List ChatTurn,
      get_chat_history store sid = w.flatMap chatLines
      ∧ (get_chat_history store sid).length = 2 * w.length
      ∧ (get_chat_history store sid).length % 2 = 0
      ∧ ∀ i, i < (get_chat_history store sid).length →
          (i % 2 = 0 → ∃ r, (get_chat_history store sid).getD i "" = "QUERY: " ++ r)
          ∧ (i % 2 = 1 → ∃ r, (get_chat_history store sid).getD i "" = "RESPONSE: " ++ r) := by
  refine ⟨((List.insertionSort (fun a b : ChatTurn => b.timestamp ≤ a.timestamp)
      (store.filter (fun c => c.session_id == sid))).take 3).reverse,
    get_chat_history_eq store sid, ?_, ?_, ?_⟩
  · rw [get_chat_history_eq, length_flatMap_chatLines]
  · rw [get_chat_history_eq, length_flatMap_chatLines]
    omega
  · intro i hi
    rw [get_chat_history_eq] at hi ⊢
    exact flatMap_chatLines_alt _ i hi

/-- A turn whose query and response fields are both absent. -/
def noneTurn : ChatTurn :=
  { user_id := "u", session_id := "S", query := none, response := none, timestamp := 1 }

/-- Witness for C10: a turn with both fields missing still yields an
even-length alternating rendering whose lines carry empty substitutions. -/
theorem c10_history_lines_shape_witness :
    (get_chat_history [noneTurn] "S").length % 2 = 0
    ∧ (∃ w : List ChatTurn, get_chat_history [noneTurn] "S" = w.flatMap chatLines)
    ∧ get_chat_history [noneTurn] "S" = ["QUERY: ", "RESPONSE: "] := by
  obtain ⟨w, h1, _, h3, _⟩ := c10_history_lines_shape [noneTurn] "S"
  exact ⟨h3, ⟨w, h1⟩, by decide⟩

/-- Recognizer for chat-turn write effects. -/
def isSaveChat : Effect → Bool
  | .saveChat _ _ _ _ => true
  | _ => false

/-- Recognizer for vector-index batch-upsert effects. -/
def isUpsertEff : Effect → Bool
  | .upsert _ _ => true
  | _ => false

/-- C1. Every successful query-pipeline run returns the PredictResult
record, whose type carries exactly the fields response, model,
input_tokens, output_tokens, chunks_retrieved, chat_history_length and
timing_breakdown, the latter exactly the six stage keys; chunks_retrieved
is the number of retrieved chunk texts, chat_history_length the length of
the fetched history, and every timing entry is a seconds string ending in
"s". -/
theorem c1_predict_result_shape (env : PredictEnv) (query session_id user_id : String)
    (r : PredictResult) (tr : List Effect)
    (h : predict_flow env query session_id user_id = (.ok r, tr)) :
    (∃ cc d, retrieve_similar_chunks env.retriever query 5 = .ok cc ∧ env.llm = .ok d ∧
      r = { response := d.response, model := d.model, input_tokens := d.input_tokens,
            output_tokens := d.output_tokens, chunks_retrieved := cc.length,
            chat_history_length := (get_chat_history env.chat_store session_id).length,
            timing_breakdown :=
              { retrieval := fmtMillis env.t_retrieval, history := fmtMillis env.t_history,
                prompt := fmtMillis env.t_prompt, llm := fmtMillis env.t_llm,
                save := fmtMillis env.t_save, total := fmtMillis env.t_total } })
    ∧ (∃ a, r.timing_breakdown.retrieval = a ++ "s")
    ∧ (∃ a, r.timing_breakdown.history = a ++ "s")
    ∧ (∃ a, r.timing_breakdown.prompt = a ++ "s")
    ∧ (∃ a, r.timing_breakdown.llm = a ++ "s")
    ∧ (∃ a, r.timing_breakdown.save = a ++ "s")
    ∧ (∃ a, r.timing_breakdown.total = a ++ "s") := by
  rcases hret : retrieve_similar_chunks env.retriever query 5 with e | cc
  · simp [predict_flow, hret] at h
  · rcases hh : env.history_ok with e | u
    · simp [predict_flow, hret, hh] at h
    · rcases hp : env.prompt_ok with e | u2
      · simp [predict_flow, hret, hh, hp] at h
      · rcases hl : env.llm with e | d
        · simp [predict_flow, hret, hh, hp, hl] at h
        · rcases hs : env.save_ok with e | u3
          · simp [predict_flow, hret, hh, hp, hl, hs] at h
          · simp only [predict_flow, hret, hh, hp, hl, hs, Prod.mk.injEq,
              Except.ok.injEq] at h
            obtain ⟨h1, -⟩ := h
            subst h1
            exact ⟨⟨cc, d, rfl, rfl, rfl⟩, ⟨_, rfl⟩, ⟨_, rfl⟩, ⟨_, rfl⟩, ⟨_, rfl⟩,
              ⟨_, rfl⟩, ⟨_, rfl⟩⟩

/-- Retrieval environment of the demonstration runs: an embedding gateway
that answers, an empty index, a constant score. -/
def demoRetr : RetrieveEnv :=
  { embed := fun _ => .ok [1], index := [], score := fun _ _ => 0 }

/-- LLM answer of the demonstration runs. -/
def demoLLM : LLMData := { model := "m", response := "hello", input_tokens := 3, output_tokens := 4 }

/-- A query-pipeline environment in which every stage succeeds. -/
def demoEnvOk : PredictEnv :=
  { retriever := demoRetr, chat_store := [], history_ok := .ok (), prompt_ok := .ok (),
    llm := .ok demoLLM, save_ok := .ok (), t_retrieval := 1, t_history := 2, t_prompt := 3,
    t_llm := 4, t_save := 5, t_total := 15 }

/-- The result record of the all-success demonstration run. -/
def demoResult : PredictResult :=
  { response := "hello", model := "m", input_tokens := 3, output_tokens := 4,
    chunks_retrieved := 0, chat_history_length := 0,
    timing_breakdown :=
      { retrieval := fmtMillis 1, history := fmtMillis 2, prompt := fmtMillis 3,
        llm := fmtMillis 4, save := fmtMillis 5, total := fmtMillis 15 } }

/-- The effect trace of the all-success demonstration run. -/
def demoTrace : List Effect :=
  [.retrievalCall "q" 5, .historyRead "s", .llmCall (format_context_prompt [] [] "q"),
   .saveChat "u" "s" "q" "hello"]

/-- Witness for C1 at the all-success demonstration run. -/
theorem c1_predict_result_shape_witness :
    ∃ a, demoResult.timing_breakdown.total = a ++ "s" :=
  (c1_predict_result_shape demoEnvOk "q" "s" "u" demoResult demoTrace rfl).2.2.2.2.2.2

/-- C3. A query-pipeline run writes at most one chat turn; a chat-turn
write implies every earlier stage, generation included, succeeded and
carries the run identifiers with the generated response; a run in which
retrieval, history fetch, prompt assembly or generation fails writes no
chat turn. -/
theorem c3_persist_once (env : PredictEnv) (query session_id user_id : String) :
    ((predict_flow env query session_id user_id).2.countP isSaveChat ≤ 1)
    ∧ (∀ u s q0 r0, Effect.saveChat u s q0 r0 ∈ (predict_flow env query session_id user_id).2 →
        (∃ cc, retrieve_similar_chunks env.retriever query 5 = .ok cc)
        ∧ env.history_ok = .ok () ∧ env.prompt_ok = .ok ()
        ∧ (∃ d, env.llm = .ok d ∧ u = user_id ∧ s = session_id ∧ q0 = query
            ∧ r0 = d.response))
    ∧ (((∃ e, retrieve_similar_chunks env.retriever query 5 = .error e)
        ∨ (∃ e, env.history_ok = .error e) ∨ (∃ e, env.prompt_ok = .error e)
        ∨ (∃ e, env.llm = .error e)) →
        (predict_flow env query session_id user_id).2.countP isSaveChat = 0) := by
  rcases hret : retrieve_similar_chunks env.retriever query 5 with e | cc
  · refine ⟨?_, ?_, ?_⟩
    · simp [predict_flow, hret, isSaveChat]
    · intro u s q0 r0 hmem
      simp [predict_flow, hret] at hmem
    · intro _; simp [predict_flow, hret, isSaveChat]
  · rcases hh : env.history_ok with e | u
    · refine ⟨?_, ?_, ?_⟩
      · simp [predict_flow, hret, hh, isSaveChat]
      · intro u s q0 r0 hmem
        simp [predict_flow, hret, hh] at hmem
      · intro _; simp [predict_flow, hret, hh, isSaveChat]
    · rcases hp : env.prompt_ok with e | u2
      · refine ⟨?_, ?_, ?_⟩
        · simp [predict_flow, hret, hh, hp, isSaveChat]
        · intro u s q0 r0 hmem
          simp [predict_flow, hret, hh, hp] at hmem
        · intro _; simp [predict_flow, hret, hh, hp, isSaveChat]
      · rcases hl : env.llm with e | d
        · refine ⟨?_, ?_, ?_⟩
          · simp [predict_flow, hret, hh, hp, hl, isSaveChat]
          · intro u s q0 r0 hmem
            simp [predict_flow, hret, hh, hp, hl] at hmem
          · intro _; simp [predict_flow, hret, hh, hp, hl, isSaveChat]
        · rcases hs : env.save_ok with e | u3
          · refine ⟨?_, ?_, ?_⟩
            · simp [predict_flow, hret, hh, hp, hl, hs, isSaveChat]
            · intro u s q0 r0 hmem
              simp [predict_flow, hret, hh, hp, hl, hs] at hmem
              exact ⟨⟨cc, rfl⟩, rfl, rfl, d, rfl, hmem.1, hmem.2.1, hmem.2.2⟩
            · rintro (⟨e, he⟩ | ⟨e, he⟩ | ⟨e, he⟩ | ⟨e, he⟩) <;>
                simp [hret, hh, hp, hl] at he
          · refine ⟨?_, ?_, ?_⟩
            · simp [predict_flow, hret, hh, hp, hl, hs, isSaveChat]
            · intro u s q0 r0 hmem
              simp [predict_flow, hret, hh, hp, hl, hs] at hmem
              exact ⟨⟨cc, rfl⟩, rfl, rfl, d, rfl, hmem.1, hmem.2.1, hmem.2.2⟩
            · rintro (⟨e, he⟩ | ⟨e, he⟩ | ⟨e, he⟩ | ⟨e, he⟩) <;>
                simp [hret, hh, hp, hl] at he

/-- Witness for C3 at the all-success demonstration run. -/
theorem c3_persist_once_witness :
    (predict_flow demoEnvOk "q" "s" "u").2.countP isSaveChat ≤ 1
    ∧ ((∃ cc, retrieve_similar_chunks demoEnvOk.retriever "q" 5 = .ok cc)
       ∧ demoEnvOk.history_ok = .ok () ∧ demoEnvOk.prompt_ok = .ok ()
       ∧ (∃ d, demoEnvOk.llm = .ok d ∧ "u" = "u" ∧ "s" = "s" ∧ "q" = "q"
           ∧ "hello" = d.response)) := by
  have h := c3_persist_once demoEnvOk "q" "s" "u"
  exact ⟨h.1, h.2.1 "u" "s" "q" "hello" (by decide)⟩

/-- C9. Whenever any query-pipeline stage fails, no partial answer is
returned: the result is a single wrapped pipeline-level error and the
transport layer reports a 500 server error. -/
theorem c9_failure_is_server_error (secret : String) (env : PredictEnv)
    (query session_id user_id : String)
    (hfail : (∃ e, retrieve_similar_chunks env.retriever query 5 = .error e)
      ∨ (∃ e, env.history_ok = .error e) ∨ (∃ e, env.prompt_ok = .error e)
      ∨ (∃ e, env.llm = .error e) ∨ (∃ e, env.save_ok = .error e)) :
    (∃ e, (predict_flow env query session_id user_id).1
        = .error ("Error in predict_flow: " ++ e))
    ∧ (∀ r, (predict_flow env query session_id user_id).1 ≠ .ok r)
    ∧ (∃ e, (predict_endpoint secret (some secret) env query session_id user_id).1
        = .httpError 500 ("Prediction failed: " ++ ("Error in predict_flow: " ++ e))) := by
  rcases hret : retrieve_similar_chunks env.retriever query 5 with e | cc
  · refine ⟨⟨e, ?_⟩, ?_, ⟨e, ?_⟩⟩
    · simp [predict_flow, hret, wrapPredictError]
    · intro r; simp [predict_flow, hret]
    · simp [predict_endpoint, verify_client_secret, predict_flow, hret, wrapPredictError]
  · rcases hh : env.history_ok with e | u
    · refine ⟨⟨e, ?_⟩, ?_, ⟨e, ?_⟩⟩
      · simp [predict_flow, hret, hh, wrapPredictError]
      · intro r; simp [predict_flow, hret, hh]
      · simp [predict_endpoint, verify_client_secret, predict_flow, hret, hh, wrapPredictError]
    · rcases hp : env.prompt_ok with e | u2
      · refine ⟨⟨e, ?_⟩, ?_, ⟨e, ?_⟩⟩
        · simp [predict_flow, hret, hh, hp, wrapPredictError]
        · intro r; simp [predict_flow, hret, hh, hp]
        · simp [predict_endpoint, verify_client_secret, predict_flow, hret, hh, hp,
            wrapPredictError]
      · rcases hl : env.llm with e | d
        · refine ⟨⟨e, ?_⟩, ?_, ⟨e, ?_⟩⟩
          · simp [predict_flow, hret, hh, hp, hl, wrapPredictError]
          · intro r; simp [predict_flow, hret, hh, hp, hl]
          · simp [predict_endpoint, verify_client_secret, predict_flow, hret, hh, hp, hl,
              wrapPredictError]
        · rcases hs : env.save_ok with e | u3
          · refine ⟨⟨e, ?_⟩, ?_, ⟨e, ?_⟩⟩
            · simp [predict_flow, hret, hh, hp, hl, hs, wrapPredictError]
            · intro r; simp [predict_flow, hret, hh, hp, hl, hs]
            · simp [predict_endpoint, verify_client_secret, predict_flow, hret, hh, hp, hl,
                hs, wrapPredictError]
          · exfalso
            rcases hfail with ⟨e, he⟩ | ⟨e, he⟩ | ⟨e, he⟩ | ⟨e, he⟩ | ⟨e, he⟩ <;>
              simp [hret, hh, hp, hl, hs] at he

/-- A query-pipeline environment whose generation stage fails. -/
def demoEnvFail : PredictEnv := { demoEnvOk with llm := .error "boom" }

/-- Witness for C9 at a run whose generation stage fails. -/
theorem c9_failure_is_server_error_witness :
    (∃ e, (predict_flow demoEnvFail "q" "s" "u").1
        = .error ("Error in predict_flow: " ++ e))
    ∧ (∀ r, (predict_flow demoEnvFail "q" "s" "u").1 ≠ .ok r) := by
  have h := c9_failure_is_server_error "sec" demoEnvFail "q" "s" "u"
    (Or.inr (Or.inr (Or.inr (Or.inl ⟨"boom", rfl⟩))))
  exact ⟨h.1, h.2.1⟩

/-- C8 counterexample. A request to /predict with the X-Client-Secret
header absent is rejected with the validation status 422, not with the
unauthorized status 401 the claim names; no pipeline effect occurs. -/
theorem c8_missing_header_counterexample :
    (predict_endpoint "sec" none demoEnvOk "q" "s" "u").1 = .httpError 422 "Field required"
    ∧ (∀ d, (predict_endpoint "sec" none demoEnvOk "q" "s" "u").1 ≠ .httpError 401 d)
    ∧ (predict_endpoint "sec" none demoEnvOk "q" "s" "u").2 = [] := by
  refine ⟨rfl, ?_, rfl⟩
  intro d h
  simp [predict_endpoint, verify_client_secret] at h

/-- C8 (amended). A request to /train or /predict whose X-Client-Secret
header is missing or differs from the configured secret is rejected before
any pipeline stage executes, with an empty effect trace; a mismatched
header is rejected with the unauthorized status 401 and a missing header
with the validation status 422. -/
theorem c8_auth_gate (secret : String) (header : Option String)
    (hbad : ∀ s, header = some s → s ≠ secret)
    (env : PredictEnv) (tenv : TrainEnv) (query session_id user_id filename : String) :
    (∃ st d, (predict_endpoint secret header env query session_id user_id).1
        = .httpError st d ∧ (st = 401 ∨ st = 422))
    ∧ (predict_endpoint secret header env query session_id user_id).2 = []
    ∧ (∃ st d, (train_endpoint secret header tenv user_id filename).1
        = .httpError st d ∧ (st = 401 ∨ st = 422))
    ∧ (train_endpoint secret header tenv user_id filename).2 = []
    ∧ (header = none →
        (predict_endpoint secret header env query session_id user_id).1
          = .httpError 422 "Field required")
    ∧ (∀ s, header = some s →
        (predict_endpoint secret header env query session_id user_id).1
          = .httpError 401 "Invalid client secret key") := by
  cases header with
  | none =>
    refine ⟨⟨422, "Field required", rfl, Or.inr rfl⟩, rfl,
      ⟨422, "Field required", rfl, Or.inr rfl⟩, rfl, fun _ => rfl, ?_⟩
    intro s hs; cases hs
  | some s =>
    have hne : (s == secret) = false := by
      have := hbad s rfl
      simp [this]
    refine ⟨⟨401, "Invalid client secret key", ?_, Or.inl rfl⟩, ?_,
      ⟨401, "Invalid client secret key", ?_, Or.inl rfl⟩, ?_, ?_, ?_⟩
    · simp [predict_endpoint, verify_client_secret, hne]
    · simp [predict_endpoint, verify_client_secret, hne]
    · simp [train_endpoint, verify_client_secret, hne]
    · simp [train_endpoint, verify_client_secret, hne]
    · intro h; cases h
    · intro s2 hs2
      cases hs2
      simp [predict_endpoint, verify_client_secret, hne]

/-- Vector-store environment of the demonstration runs, with an injective
identifier stream. -/
def demoStoreEnv : StoreEnv :=
  { embed_ok := .ok (), embedOf := fun _ => [1],
    uuid := fun n => String.mk (List.replicate n (Char.ofNat 97)), upsert_ok := .ok () }

/-- An ingestion environment whose upload is empty, so that chunking
yields zero chunks while extraction and the raw-document save succeed. -/
def zeroChunkEnv : TrainEnv :=
  { file_size := 0, extract := .ok "", mongo_save := .ok (), chunker := fun _ => [],
    store := demoStoreEnv, t_file_read := 1, t_text_extraction := 1, t_mongo_save := 1,
    t_chunking := 1, t_metadata := 1, t_vector_storage := 1, t_total := 6 }

/-- Witness for C8 at a mismatched header. -/
theorem c8_auth_gate_witness :
    (∃ st d, (predict_endpoint "sec" (some "wrong") demoEnvOk "q" "s" "u").1
        = .httpError st d ∧ (st = 401 ∨ st = 422))
    ∧ (predict_endpoint "sec" (some "wrong") demoEnvOk "q" "s" "u").2 = [] := by
  have h := c8_auth_gate "sec" (some "wrong")
    (by intro s hs; cases hs; decide) demoEnvOk zeroChunkEnv "q" "s" "u" "f.txt"
  exact ⟨h.1, h.2.1⟩

/-- C4 counterexample. Ingesting an empty document does return the
structured failure record with status failed, but a document-store write
of the raw document has already happened when the zero-chunk check fires,
so the run neither avoids document-store writes nor aborts before that
stage. -/
theorem c4_zero_chunk_counterexample :
    (train zeroChunkEnv "u1" "empty.txt").1
      = .failed { error := "Processing Error",
                  message := "No chunks generated from document",
                  user_id := "u1", filename := "empty.txt", status := "failed" }
    ∧ Effect.docSave "u1" "u1_empty.txt" "" ∈ (train zeroChunkEnv "u1" "empty.txt").2 := by
  have ht : (train zeroChunkEnv "u1" "empty.txt").2
      = [Effect.docSave "u1" "u1_empty.txt" ""] := rfl
  exact ⟨rfl, by rw [ht]; exact List.mem_singleton.mpr rfl⟩

/-- C4 (amended). A run whose chunking yields zero chunks returns the
structured failure record with exactly the fields error, message, user_id,
filename and status failed, raises nothing, and performs no embedding call
and no vector-index write, so no partial chunk set is indexed; its only
side effect is the raw-document save that precedes chunking. -/
theorem c4_zero_chunk_result (env : TrainEnv) (uid fname text : String)
    (hx : env.extract = .ok text) (hm : env.mongo_save = .ok ())
    (hc : env.chunker text = []) :
    (train env uid fname).1
      = .failed { error := "Processing Error",
                  message := "No chunks generated from document",
                  user_id := uid, filename := fname, status := "failed" }
    ∧ (train env uid fname).2 = [Effect.docSave uid (uid ++ "_" ++ fname) text]
    ∧ (∀ c ps, Effect.upsert c ps ∉ (train env uid fname).2)
    ∧ (∀ ts, Effect.embedBatch ts ∉ (train env uid fname).2) := by
  have ht : train env uid fname
      = (.failed { error := "Processing Error",
                   message := "No chunks generated from document",
                   user_id := uid, filename := fname, status := "failed" },
         [Effect.docSave uid (uid ++ "_" ++ fname) text]) := by
    simp [train, hx, hm, hc]
  refine ⟨by rw [ht], by rw [ht], ?_, ?_⟩
  · intro c ps hmem
    rw [ht] at hmem
    simp at hmem
  · intro ts hmem
    rw [ht] at hmem
    simp at hmem

/-- Witness for C4 (amended) at the empty-document environment. -/
theorem c4_zero_chunk_result_witness :
    (train zeroChunkEnv "u1" "empty.txt").1
      = .failed { error := "Processing Error",
                  message := "No chunks generated from document",
                  user_id := "u1", filename := "empty.txt", status := "failed" }
    ∧ (∀ c ps, Effect.upsert c ps ∉ (train zeroChunkEnv "u1" "empty.txt").2) := by
  have h := c4_zero_chunk_result zeroChunkEnv "u1" "empty.txt" "" rfl rfl rfl
  exact ⟨h.1, h.2.2.1⟩

/-- A payload without a text key yields the default. -/
theorem dictGet_of_no_text (d : List (String × String)) (key dflt : String)
    (h : d.find? (fun p => p.1 == key) = none) : dictGet d key dflt = dflt := by
  unfold dictGet
  rw [h]

/-- C6. When the query embedding succeeds, retrieval returns exactly the
ranked search hits reduced to their stored text payloads: the result has
length min(k, index size), hence at most k; a hit with no text payload
contributes the empty string at its rank; an empty index yields the empty
sequence, not an error. -/
theorem c6_retrieve_contract (env : RetrieveEnv) (query : String) (k : Nat) (qv : List ℚ)
    (h : env.embed query = .ok qv) :
    ∃ hits rs, hits = qdrantSearch env.index (env.score qv) k
      ∧ retrieve_similar_chunks env query k = .ok rs
      ∧ rs = hits.map (fun p => dictGet p.payload "text" "")
      ∧ rs.length = min k env.index.length
      ∧ rs.length ≤ k
      ∧ (∀ (i : Nat) (p : QPoint), hits[i]? = some p →
          p.payload.find? (fun kv => kv.1 == "text") = none → rs[i]? = some "")
      ∧ (env.index = [] → rs = []) := by
  refine ⟨qdrantSearch env.index (env.score qv) k,
    (qdrantSearch env.index (env.score qv) k).map (fun p => dictGet p.payload "text" ""),
    rfl, ?_, rfl, ?_, ?_, ?_, ?_⟩
  · simp [retrieve_similar_chunks, h]
  · simp [qdrantSearch, List.length_take, List.length_insertionSort]
  · simp [qdrantSearch, List.length_take, List.length_insertionSort]
  · intro i p hp hnone
    rw [List.getElem?_map, hp]
    simp [dictGet_of_no_text p.payload "text" "" hnone]
  · intro hempty
    simp [qdrantSearch, hempty]

/-- A stored point carrying a text payload, for the demonstration index. -/
def demoPoint1 : QPoint := { id := "p1", vector := [1], payload := [("text", "alpha")] }

/-- A stored point with no text payload, for the demonstration index. -/
def demoPoint2 : QPoint := { id := "p2", vector := [0], payload := [("source", "f")] }

/-- A retrieval environment over a two-point index whose scores follow the
first vector coordinate. -/
def demoRetr2 : RetrieveEnv :=
  { embed := fun _ => .ok [1], index := [demoPoint1, demoPoint2],
    score := fun _ p => p.vector.headD 0 }

/-- Witness for C6: the two-point index yields the text of the best hit
then an empty string for the hit without a text payload. -/
theorem c6_retrieve_contract_witness :
    retrieve_similar_chunks demoRetr2 "q" 5 = .ok ["alpha", ""]
    ∧ (∃ rs, retrieve_similar_chunks demoRetr2 "q" 5 = .ok rs ∧ rs.length ≤ 5) := by
  obtain ⟨hits, rs, h1, h2, h3, h4, h5, h6, h7⟩ :=
    c6_retrieve_contract demoRetr2 "q" 5 [1] rfl
  have hrs : rs = ["alpha", ""] := by
    rw [h3, h1]
    decide
  exact ⟨hrs ▸ h2, rs, h2, h5⟩

/-- C7. A successful store call over texts with at most as many metadata
dicts inserts exactly one batch upsert of exactly one point per text, each
point carrying a fresh identifier from the injective identifier stream
(so all identifiers are distinct), the embedding vector of its text, and a
payload merging the text entry with the positional metadata dict when one
exists and with the empty dict otherwise. -/
theorem c7_store_chunks (env : StoreEnv) (texts : List String)
    (metadatas : List (List (String × String)))
    (hemb : env.embed_ok = .ok ()) (hlen : metadatas.length ≤ texts.length)
    (huuid : Function.Injective env.uuid) :
    ∃ points : List QPoint,
      (store_chunks env texts metadatas).2
        = [.embedBatch texts, .upsert "rag_chunks" points]
      ∧ (store_chunks env texts metadatas).2.countP isUpsertEff = 1
      ∧ points.length = texts.length
      ∧ (∀ (i : Nat) (p : QPoint), points[i]? = some p →
          p.id = env.uuid i
          ∧ p.vector = (texts.map env.embedOf)[i]?.getD []
          ∧ (i < metadatas.length →
              p.payload = pyMerge [("text", texts.getD i "")] (metadatas.getD i []))
          ∧ (metadatas.length ≤ i →
              p.payload = pyMerge [("text", texts.getD i "")] []))
      ∧ (points.map QPoint.id).Nodup := by
  refine ⟨(texts.map env.embedOf).enum.map (mkStorePoint env texts metadatas),
    ?_, ?_, ?_, ?_, ?_⟩
  · rcases hup : env.upsert_ok with e | u <;> simp [store_chunks, hemb, hup]
  · rcases hup : env.upsert_ok with e | u <;>
      simp [store_chunks, hemb, hup, isUpsertEff, List.countP_cons]
  · simp [List.length_map, List.enum_length]
  · intro i p hp
    rw [List.getElem?_map, List.getElem?_enum, List.getElem?_map] at hp
    rcases ht : texts[i]? with _ | t
    · rw [ht] at hp
      simp at hp
    · rw [ht] at hp
      have hp' : mkStorePoint env texts metadatas (i, env.embedOf t) = p := by
        simpa using hp
      subst hp'
      refine ⟨rfl, ?_, ?_, ?_⟩
      · rw [List.getElem?_map, ht]
        rfl
      · intro hlt
        simp [mkStorePoint, hlt]
      · intro hge
        simp only [mkStorePoint]
        rw [if_neg (by omega)]
  · rw [List.map_map]
    have hcomp : (texts.map env.embedOf).enum.map
        (QPoint.id ∘ mkStorePoint env texts metadatas)
        = ((texts.map env.embedOf).enum.map Prod.fst).map env.uuid := by
      rw [List.map_map]
      rfl
    rw [hcomp, List.enum_map_fst]
    exact List.Nodup.map huuid (List.nodup_range _)

/-- Witness for C7 at two texts and one metadata dict, with a replicate
identifier stream. -/
theorem c7_store_chunks_witness :
    ∃ points : List QPoint,
      (store_chunks demoStoreEnv ["t1", "t2"] [[("source", "f")]]).2
        = [.embedBatch ["t1", "t2"], .upsert "rag_chunks" points]
      ∧ points.length = 2 ∧ (points.map QPoint.id).Nodup := by
  have huuid : Function.Injective demoStoreEnv.uuid := by
    intro a b hab
    have := congrArg (fun s : String => s.data.length) hab
    simpa [demoStoreEnv] using this
  obtain ⟨points, h1, h2, h3, h4, h5⟩ :=
    c7_store_chunks demoStoreEnv ["t1", "t2"] [[("source", "f")]] rfl (by decide) huuid
  exact ⟨points, h1, h3, h5⟩

/-- Characters that CPython repr renders verbatim inside single quotes:
printable ASCII other than the two quote characters and the backslash. -/
def plainChar (c : Char) : Prop :=
  32 ≤ c.toNat ∧ c.toNat < 127 ∧ c ≠ squoteChar ∧ c ≠ dquoteChar ∧ c ≠ '\\'

instance : DecidablePred plainChar := fun c => by
  unfold plainChar
  infer_instance

/-- A string all of whose characters are rendered verbatim by repr. -/
def plainStr (s : String) : Prop := ∀ c ∈ s.data, plainChar c

instance (s : String) : Decidable (plainStr s) := by
  unfold plainStr
  infer_instance

/-- The data of a singleton string. -/
theorem data_singleton (c : Char) : (String.singleton c).data = [c] := rfl

/-- A plain character is rendered verbatim. -/
theorem pyReprChar_plain (c : Char) (h : plainChar c) :
    pyReprChar squoteChar c = String.singleton c := by
  obtain ⟨h1, h2, h3, h4, h5⟩ := h
  have hn : c ≠ '\n' := fun he => absurd (he ▸ h1) (by decide)
  have hr : c ≠ '\r' := fun he => absurd (he ▸ h1) (by decide)
  have htb : c ≠ '\t' := fun he => absurd (he ▸ h1) (by decide)
  unfold pyReprChar
  rw [if_neg h5, if_neg h3, if_neg hn, if_neg hr, if_neg htb,
    if_neg (by rintro (hlt | he) <;> omega)]

/-- The repr body of a list of plain characters is the string they
spell. -/
theorem pyReprBody_plain (l : List Char) (h : ∀ c ∈ l, plainChar c) :
    pyReprBody squoteChar l = String.mk l := by
  induction l with
  | nil => rfl
  | cons c cs ih =>
    rw [pyReprBody, pyReprChar_plain c (h c (by simp)),
      ih (fun x hx => h x (by simp [hx]))]
    apply String.ext
    rw [String.data_append, data_singleton]
    rfl

/-- The repr of a plain string is the string wrapped in single quotes. -/
theorem pyReprStr_plain (t : String) (hp : plainStr t) :
    pyReprStr t = String.singleton squoteChar ++ t ++ String.singleton squoteChar := by
  have hmem : squoteChar ∉ t.data := fun hmem => (hp _ hmem).2.2.1 rfl
  have hcon : t.data.contains squoteChar = false := by
    simpa using hmem
  unfold pyReprStr
  rw [hcon]
  simp only [Bool.false_and, if_neg Bool.false_ne_true]
  rw [pyReprBody_plain t.data hp]

/-- A member of a list of plain strings occurs verbatim inside the
comma-joined rendering of their reprs. -/
theorem mem_pyJoinComma (xs : List String) (t : String) (ht : t ∈ xs)
    (hp : ∀ x ∈ xs, plainStr x) :
    ∃ u v, pyJoinComma (xs.map pyReprStr) = u ++ t ++ v := by
  induction xs with
  | nil => cases ht
  | cons x rest ih =>
    rcases List.mem_cons.mp ht with heq | htail
    · subst heq
      cases rest with
      | nil =>
        refine ⟨String.singleton squoteChar, String.singleton squoteChar, ?_⟩
        simp only [List.map_cons, List.map_nil, pyJoinComma]
        exact pyReprStr_plain t (hp t (by simp))
      | cons y ys =>
        refine ⟨String.singleton squoteChar,
          String.singleton squoteChar ++ ", " ++ pyJoinComma ((y :: ys).map pyReprStr), ?_⟩
        simp only [List.map_cons, pyJoinComma]
        rw [pyReprStr_plain t (hp t (by simp))]
        simp [String.append_assoc]
    · cases rest with
      | nil => cases htail
      | cons y ys =>
        obtain ⟨u, v, huv⟩ := ih htail (fun z hz => hp z (by simp [List.mem_cons.mp hz]))
        refine ⟨pyReprStr x ++ ", " ++ u, v, ?_⟩
        simp only [List.map_cons, pyJoinComma] at huv ⊢
        rw [huv]
        simp [String.append_assoc]

/-- A member of a list of plain strings occurs verbatim inside the Python
list rendering. -/
theorem mem_pyStrList_infix (xs : List String) (t : String) (ht : t ∈ xs)
    (hp : ∀ x ∈ xs, plainStr x) :
    ∃ u v, pyStrList xs = u ++ t ++ v := by
  obtain ⟨u, v, huv⟩ := mem_pyJoinComma xs t ht hp
  refine ⟨"[" ++ u, v ++ "]", ?_⟩
  unfold pyStrList
  rw [huv]
  simp [String.append_assoc]

/-- Executable check that the first character list is an initial segment
of the second. -/
def isPrefixList : List Char → List Char → Bool
  | [], _ => true
  | _ :: _, [] => false
  | c :: cs, d :: ds => c == d && isPrefixList cs ds

/-- Executable check that the first character list occurs contiguously
inside the second. -/
def occursIn (p : List Char) : List Char → Bool
  | [] => p.isEmpty
  | c :: cs => isPrefixList p (c :: cs) || occursIn p cs

/-- A list is an initial segment of itself followed by anything. -/
theorem isPrefixList_append_self (p r : List Char) : isPrefixList p (p ++ r) = true := by
  induction p with
  | nil => rfl
  | cons c cs ih => simp [isPrefixList, ih]

/-- The empty pattern occurs in every list. -/
theorem occursIn_nil_pat (l : List Char) : occursIn [] l = true := by
  induction l with
  | nil => rfl
  | cons c cs ih => simp [occursIn, isPrefixList]

/-- A pattern occurs in any list that embeds it between two others. -/
theorem occursIn_append_self (p a c : List Char) :
    occursIn p (a ++ (p ++ c)) = true := by
  induction a with
  | nil =>
    cases p with
    | nil => simpa using occursIn_nil_pat c
    | cons d ds => simp [occursIn, isPrefixList, isPrefixList_append_self]
  | cons x xs ih => simp [occursIn, ih]

/-- A string decomposition around a factor makes the factor occur in the
character data. -/
theorem occursIn_of_append (t s : String)
    (h : ∃ u v : String, s = u ++ t ++ v) : occursIn t.data s.data = true := by
  obtain ⟨u, v, h⟩ := h
  subst h
  rw [String.data_append, String.data_append, List.append_assoc]
  exact occursIn_append_self t.data u.data v.data

set_option maxRecDepth 100000 in
/-- The named template segments concatenate, around exactly the three
placeholders, to the transcribed PROMPT_TEMPLATE literal. -/
theorem prompt_template_decompose :
    segBeforeHistory ++ "{chat_history}" ++ segBeforeContext ++ "{context}"
      ++ segBeforeQuery ++ "{query}" ++ "\n" = PROMPT_TEMPLATE := by
  decide

end RAG
